import Mathlib

/-
Verification development for the mike voice-agent entrypoint script.
The Python source (src/main.py) is shallowly embedded below:
Python dict values become the inductive type PyVal, fallible code returns
Except, the HTTP request and the unsigned-token decoder are passed in as
explicit outcomes/oracles, and the asyncio scheduler is modelled as a
trace of (elapsed-seconds, prompt) events with an explicit count of
completed sleeps to model task cancellation.
-/

namespace Mike

/-- A Python runtime value, as used by the metadata and context dicts. -/
inductive PyVal where
  | none
  | bool (b : Bool)
  | int (n : Int)
  | str (s : String)
  | list (xs : List PyVal)
  | dict (kvs : List (String × PyVal))

/-- A Python dict with string keys, in insertion order. -/
abbrev PyDict := List (String × PyVal)

/-- Python truthiness of a value. -/
def truthy : PyVal → Bool
  | .none => false
  | .bool b => b
  | .int n => n != 0
  | .str s => s != ""
  | .list xs => !xs.isEmpty
  | .dict kvs => !kvs.isEmpty

/-- Lookup of a key in a Python dict (first binding wins). -/
def dictGet? (d : PyDict) (k : String) : Option PyVal :=
  (d.find? (fun kv => kv.1 == k)).map (fun kv => kv.2)

/-- Python d.get(k, dflt). Python d.get(k) is pyGetD d k .none. -/
def pyGetD (d : PyDict) (k : String) (dflt : PyVal) : PyVal :=
  (dictGet? d k).getD dflt

/-- Python a or b (short-circuiting on truthiness). -/
def pyOr (a b : PyVal) : PyVal :=
  if truthy a then a else b

/-- Python v == s for a string literal s: false on non-strings. -/
def pyEqStr (v : PyVal) (s : String) : Bool :=
  match v with
  | .str t => t == s
  | _ => false

/-- Python v != s for a string literal s. -/
def pyNeStr (v : PyVal) (s : String) : Bool :=
  !(pyEqStr v s)

/-- A Python exception escaping a modelled function. -/
inductive PyErr where
  | attributeError
  | valueError (msg : String)

/-- The participant metadata input: absent (empty), a string that is not
valid JSON, or a string that parses as the given JSON value. -/
inductive Metadata where
  | absent
  | notJson (raw : String)
  | json (value : PyVal)

/-- The decoded-claims dict of an unsigned token; the decoder oracle
returns none when jwt.decode raises. -/
abbrev JwtDecoder := String → Option PyDict

/-- Embeds main.py line 74: given_name or name (default: sub, default "aluno"). -/
def rawNameOf (decoded : PyDict) : PyVal :=
  pyOr (pyGetD decoded "given_name" .none)
    (pyGetD decoded "name" (pyGetD decoded "sub" (.str "aluno")))

/-- Embeds main.py line 76: decoded.get("sub"). -/
def rawIdOf (decoded : PyDict) : PyVal :=
  pyGetD decoded "sub" .none

/-- Embeds main.py lines 73-77: the identity dict of the legacy raw-token path. -/
def rawTokenIdentity (decoded : PyDict) : PyDict :=
  [("name", rawNameOf decoded),
   ("email", pyGetD decoded "preferred_username" .none),
   ("id", rawIdOf decoded)]

/-- Embeds main.py line 96: name or given_name or sub (default "aluno"). -/
def jsonNameOf (decoded : PyDict) : PyVal :=
  pyOr (pyOr (pyGetD decoded "name" .none) (pyGetD decoded "given_name" .none))
    (pyGetD decoded "sub" (.str "aluno"))

/-- Embeds main.py line 97: email or preferred_username (default ""). -/
def jsonEmailOf (decoded : PyDict) : PyVal :=
  pyOr (pyGetD decoded "email" .none) (pyGetD decoded "preferred_username" (.str ""))

/-- Embeds main.py line 98: userId or sub (default ""). -/
def jsonIdOf (decoded : PyDict) : PyVal :=
  pyOr (pyGetD decoded "userId" .none) (pyGetD decoded "sub" (.str ""))

/-- Embeds main.py lines 81-89: the recognized top-level session params. -/
def baseParams (meta : PyDict) : PyDict :=
  [("topic", pyGetD meta "topic" (.str "")),
   ("avatar", pyGetD meta "avatar" (.str "mike")),
   ("lang", pyGetD meta "lang" (.str "en")),
   ("roleplay", pyGetD meta "roleplay" (.str "")),
   ("scenarioId", pyGetD meta "scenarioId" (.str "")),
   ("level", pyGetD meta "level" (.str "")),
   ("lesson", pyGetD meta "lesson" (.str ""))]

/-- Embeds main.py lines 81-105: the JSON-object branch of metadata parsing.
A non-string truthy jwt value makes jwt.decode raise, which the source
catches, falling back to the name "aluno". -/
def jsonBranch (jwtDecode : JwtDecoder) (meta : PyDict) : PyDict :=
  let result := baseParams meta
  let user_jwt := pyGetD meta "jwt" (.str "")
  if truthy user_jwt then
    match user_jwt with
    | .str s =>
      match jwtDecode s with
      | some decoded =>
        result ++ [("name", jsonNameOf decoded), ("email", jsonEmailOf decoded),
                   ("id", jsonIdOf decoded)]
      | Option.none => result ++ [("name", .str "aluno")]
    | _ => result ++ [("name", .str "aluno")]
  else
    result ++ [("name", .str "aluno")]

/-- Embeds main.py lines 62-105 (parse_participant_metadata). The source
only catches JSONDecodeError/TypeError around json.loads and Exception
around jwt.decode; when the metadata parses as JSON that is not an
object, meta.get raises an uncaught AttributeError. -/
def parse_participant_metadata (jwtDecode : JwtDecoder) :
    Metadata → Except PyErr PyDict
  | .absent => .ok [("name", .str "aluno")]
  | .notJson raw =>
    match jwtDecode raw with
    | some decoded => .ok (rawTokenIdentity decoded)
    | Option.none => .ok [("name", .str "aluno")]
  | .json v =>
    match v with
    | .dict meta => .ok (jsonBranch jwtDecode meta)
    | _ => .error .attributeError

/-- The embedded jwt of a JSON metadata object resolves to a claims dict
only when the jwt field is a non-empty string that the decoder accepts. -/
def metaJwtDecodes (jwtDecode : JwtDecoder) (meta : PyDict) : Option PyDict :=
  match pyGetD meta "jwt" (.str "") with
  | .str s => if s != "" then jwtDecode s else Option.none
  | _ => Option.none

/-- Outcome of the single outbound HTTP GET of fetch_agent_context:
either a response with a status and an optionally-parseable JSON body
(none = resp.json() raises), or requests.get itself raises
(network error or timeout). -/
inductive HttpOutcome where
  | response (status : Nat) (jsonBody : Option PyVal)
  | raised

/-- A log record emitted by fetch_agent_context. -/
inductive FetchLog where
  | fetching (query : PyDict)
  | received (data : PyVal)
  | apiError (status : Nat)
  | requestFailed

/-- Embeds main.py lines 111-119: the query dict sent to the context API. -/
def buildQuery (params : PyDict) : PyDict :=
  [("topic", pyGetD params "topic" (.str "")),
   ("avatar", pyGetD params "avatar" (.str "mike")),
   ("lang", pyGetD params "lang" (.str "en")),
   ("roleplay", if pyEqStr (pyGetD params "roleplay" .none) "1" then .str "1" else .str ""),
   ("scenarioId", pyGetD params "scenarioId" (.str "")),
   ("level", pyGetD params "level" (.str "")),
   ("lesson", pyGetD params "lesson" (.str ""))]

/-- Embeds main.py lines 108-135 (fetch_agent_context): the whole body is
wrapped in try/except Exception, so every failure path returns None. -/
def fetch_agent_context (params : PyDict) (outcome : HttpOutcome) :
    Except PyErr (Option PyVal) × List FetchLog :=
  let query := buildQuery params
  match outcome with
  | .raised => (.ok Option.none, [.fetching query, .requestFailed])
  | .response status body =>
    if status == 200 then
      match body with
      | some data => (.ok (some data), [.fetching query, .received data])
      | Option.none => (.ok Option.none, [.fetching query, .requestFailed])
    else
      (.ok Option.none, [.fetching query, .apiError status])

/-- Embeds main.py lines 139-145 (FALLBACK_INSTRUCTION). -/
def FALLBACK_INSTRUCTION : String :=
  "\nVocê é o Professor Mike, um professor de inglês brasileiro experiente e muito paciente.\nREGRA FUNDAMENTAL: Quando o usuário fala em PORTUGUÊS, responda em PORTUGUÊS primeiro,\ndepois convide para praticar em inglês. Quando o usuário fala em INGLÊS, responda só em inglês.\nCORREÇÃO ATIVA: Você SEMPRE identifica e corrige erros de pronúncia, gramática ou vocabulário.\nEstilo: claro, conciso, amigável; evite teoria longa; sempre feche com ação.\n"

/-- Embeds main.py line 186: the f-string of the fallback branch. -/
def fallbackSystemInstruction (user_name : String) : String :=
  "Se apresente como Professor Mike e comece uma aula para " ++ user_name
    ++ (".\n" ++ FALLBACK_INSTRUCTION)

/-- The five session-configuration variables bound by the entrypoint
(main.py lines 178-190); values stay Python values. -/
structure LessonContext where
  systemInstruction : PyVal
  initialMessage : PyVal
  voice : PyVal
  timingPrompts : PyVal
  lessonDurationSec : PyVal

/-- Embeds main.py lines 184-190: the fallback branch of the entrypoint. -/
def fallbackLessonContext (user_name : String) (params : PyDict) : LessonContext where
  systemInstruction := .str (fallbackSystemInstruction user_name)
  initialMessage := .str ""
  voice := .str (if pyNeStr (pyGetD params "avatar" (.str "mike")) "nina" = true
                 then "Charon" else "Zephyr")
  timingPrompts := .dict []
  lessonDurationSec := .int 300

/-- Embeds main.py lines 178-183: the API branch of the entrypoint. -/
def apiLessonContext (data : PyDict) : LessonContext where
  systemInstruction := pyGetD data "systemInstruction" (.str FALLBACK_INSTRUCTION)
  initialMessage := pyGetD data "initialMessage" (.str "")
  voice := pyGetD data "voice" (.str "Charon")
  timingPrompts := pyGetD data "timingPrompts" (.dict [])
  lessonDurationSec := pyGetD data "lessonDurationSec" (.int 300)

/-- Embeds main.py lines 176-190: context = fetch_agent_context(params);
if context: ... else: fallback. A returned falsy value (None or an empty
dict) selects the fallback branch. -/
def contextOrFallback (context : Option PyVal) (user_name : String) (params : PyDict) :
    LessonContext :=
  match context with
  | some data =>
    if truthy data then
      match data with
      | .dict kvs => apiLessonContext kvs
      | _ => apiLessonContext []
    else fallbackLessonContext user_name params
  | Option.none => fallbackLessonContext user_name params

/-- Replaces every leftmost non-overlapping occurrence of pat by rep,
as Python str.replace does for a non-empty pattern (list-of-chars core). -/
def replaceGo (pat rep : List Char) : List Char → List Char
  | [] => []
  | c :: rest =>
    if pat.isPrefixOf (c :: rest) then
      rep ++ replaceGo pat rep (rest.drop (pat.length - 1))
    else
      c :: replaceGo pat rep rest
termination_by l => l.length
decreasing_by
  · simp only [List.length_cons, List.length_drop]
    omega
  · simp only [List.length_cons]
    omega

/-- Python s.replace(pat, rep) for the non-empty patterns used here
(an empty pattern is returned unchanged). -/
def pyReplace (s pat rep : String) : String :=
  if pat.isEmpty then s else ⟨replaceGo pat.toList rep.toList s.toList⟩

/-- Embeds main.py line 193: system_instruction.replace("{userName}", user_name);
.replace raises AttributeError when the value is not a string. -/
def personalize (systemInstruction : PyVal) (user_name : String) : Except PyErr PyVal :=
  match systemInstruction with
  | .str s => .ok (.str (pyReplace s "{userName}" user_name))
  | _ => .error .attributeError

/-- The three Langfuse settings resolved from arguments or environment
(main.py lines 45-47); none = unset, "" also counts as missing. -/
structure LangfuseSettings where
  public_key : Option String
  secret_key : Option String
  host : Option String

/-- Python truthiness of an optional settings string. -/
def optTruthy : Option String → Bool
  | some s => s != ""
  | Option.none => false

/-- Embeds main.py lines 49-59 (setup_langfuse): raises ValueError unless
all three settings are present and non-empty. -/
def setup_langfuse (s : LangfuseSettings) : Except PyErr Unit :=
  if !optTruthy s.public_key || !optTruthy s.secret_key || !optTruthy s.host then
    .error (.valueError "LANGFUSE_PUBLIC_KEY, LANGFUSE_SECRET_KEY, and LANGFUSE_HOST must be set")
  else
    .ok ()

/-- Observable outcome of the tracing block of the entrypoint. -/
structure TracingOutcome where
  tracingActive : Bool
  shutdownFlushCallbacks : Nat
  warningsLogged : List String

/-- Embeds main.py lines 195-209: try setup_langfuse and register one
shutdown flush callback; on any exception log a warning and continue. -/
def entrypointTracing (s : LangfuseSettings) : TracingOutcome :=
  match setup_langfuse s with
  | .ok _ => ⟨true, 1, []⟩
  | .error _ => ⟨false, 0, ["Langfuse setup failed (continuing without tracing)"]⟩

/-- One timing-warning configuration, as read by send_timing_prompts
(main.py lines 237-241); fields are optional dict entries. -/
structure WarningConfig where
  atSecRemaining : Option Int
  message : Option String
deriving DecidableEq

/-- The timingPrompts mapping, with its two recognized keys. -/
structure TimingPrompts where
  pronunciationWarning : Option WarningConfig
  endingWarning : Option WarningConfig
deriving DecidableEq

/-- timing_prompts.get(key, default empty dict). -/
def emptyWarning : WarningConfig := ⟨Option.none, Option.none⟩

/-- Python truthiness of an optional message string. -/
def msgTruthy : Option String → Bool
  | some s => s != ""
  | Option.none => false

/-- A prompt issued by the scheduler, with the total seconds elapsed
since the scheduler task started. -/
inductive PromptEvent where
  | pronunciationWarningSent (elapsed : Int) (message : String)
  | endingWarningSent (elapsed : Int) (message : String)
deriving DecidableEq

/-- Embeds main.py lines 235-255 (send_timing_prompts, uncancelled run) as
the trace of sent prompts; asyncio.sleep accumulates elapsed time, and the
second sleep waits remaining_wait = end_delay - pron_delay on top of
whatever was actually slept before it. -/
def send_timing_prompts (timing : TimingPrompts) (lesson_duration : Int) :
    List PromptEvent :=
  let pron_warning := timing.pronunciationWarning.getD emptyWarning
  let end_warning := timing.endingWarning.getD emptyWarning
  let pron_at := pron_warning.atSecRemaining.getD 60
  let end_at := end_warning.atSecRemaining.getD 10
  let pron_delay := lesson_duration - pron_at
  let end_delay := lesson_duration - end_at
  let pronSent := pron_delay > 0 ∧ msgTruthy pron_warning.message = true
  let pronEvents :=
    if pronSent then
      [PromptEvent.pronunciationWarningSent pron_delay (pron_warning.message.getD "")]
    else []
  let pronElapsed := if pronSent then pron_delay else 0
  let remaining_wait := end_delay - pron_delay
  let endEvents :=
    if remaining_wait > 0 ∧ msgTruthy end_warning.message = true then
      [PromptEvent.endingWarningSent (pronElapsed + remaining_wait) (end_warning.message.getD "")]
    else []
  pronEvents ++ endEvents

/-- The number of asyncio.sleep calls an uncancelled run executes. -/
def sleepsNeeded (timing : TimingPrompts) (lesson_duration : Int) : Nat :=
  let pron_warning := timing.pronunciationWarning.getD emptyWarning
  let end_warning := timing.endingWarning.getD emptyWarning
  let pron_at := pron_warning.atSecRemaining.getD 60
  let end_at := end_warning.atSecRemaining.getD 10
  let pron_delay := lesson_duration - pron_at
  let end_delay := lesson_duration - end_at
  let remaining_wait := end_delay - pron_delay
  (if pron_delay > 0 ∧ msgTruthy pron_warning.message = true then 1 else 0) +
    (if remaining_wait > 0 ∧ msgTruthy end_warning.message = true then 1 else 0)

/-- Embeds main.py lines 235-257 with cooperative cancellation: the task is
cancelled during its (sleepsBeforeCancel + 1)-th sleep, CancelledError is
raised at that await and absorbed by the except branch (pass), so the run
returns the prompts already sent and logs nothing. -/
def send_timing_prompts_cancellable (timing : TimingPrompts) (lesson_duration : Int)
    (sleepsBeforeCancel : Nat) : List PromptEvent × List String :=
  let pron_warning := timing.pronunciationWarning.getD emptyWarning
  let end_warning := timing.endingWarning.getD emptyWarning
  let pron_at := pron_warning.atSecRemaining.getD 60
  let end_at := end_warning.atSecRemaining.getD 10
  let pron_delay := lesson_duration - pron_at
  let end_delay := lesson_duration - end_at
  let remaining_wait := end_delay - pron_delay
  if pron_delay > 0 ∧ msgTruthy pron_warning.message = true then
    match sleepsBeforeCancel with
    | 0 => ([], [])
    | b + 1 =>
      let firstEvent :=
        [PromptEvent.pronunciationWarningSent pron_delay (pron_warning.message.getD "")]
      if remaining_wait > 0 ∧ msgTruthy end_warning.message = true then
        match b with
        | 0 => (firstEvent, [])
        | _ + 1 =>
          (firstEvent ++ [PromptEvent.endingWarningSent (pron_delay + remaining_wait)
            (end_warning.message.getD "")], [])
      else (firstEvent, [])
  else
    if remaining_wait > 0 ∧ msgTruthy end_warning.message = true then
      match sleepsBeforeCancel with
      | 0 => ([], [])
      | _ + 1 =>
        ([PromptEvent.endingWarningSent (0 + remaining_wait) (end_warning.message.getD "")], [])
    else ([], [])

theorem replaceGo_no_occurrence (pat rep : List Char) :
    ∀ s : List Char, ¬ pat <:+: s → replaceGo pat rep s = s := by
  intro s
  induction s with
  | nil =>
    intro _
    simp only [replaceGo]
  | cons c rest ih =>
    intro h
    have hb : ¬ pat.isPrefixOf (c :: rest) = true := by
      intro hb
      exact h (List.IsPrefix.isInfix (List.isPrefixOf_iff_prefix.mp hb))
    simp only [replaceGo, if_neg hb]
    rw [ih (fun hi => h (List.infix_cons hi))]

theorem pyReplace_no_occurrence (s pat rep : String)
    (h : ¬ pat.toList <:+: s.toList) : pyReplace s pat rep = s := by
  unfold pyReplace
  split
  · rfl
  · rw [replaceGo_no_occurrence pat.toList rep.toList s.toList h]
    rfl

/-- C1: the spec requires the ending-warning prompt to be sent at total
elapsed time endDelay = lessonDurationSec - endAt whenever
remainingWait > 0 and an ending message is configured, regardless of
whether the pronunciation prompt was sent. The code violates this: with
lessonDurationSec = 300, pronAt = 60, endAt = 10 and no pronunciation
message, the first sleep is skipped, and the ending prompt is sent at
elapsed 50 = remainingWait instead of 290 = endDelay. -/
theorem ending_warning_fires_early_when_pron_skipped :
    send_timing_prompts ⟨some ⟨some 60, Option.none⟩, some ⟨some 10, some "e"⟩⟩ 300 =
      [PromptEvent.endingWarningSent 50 "e"] := by decide

/-- C2: the spec invariant says a warning whose delay is non-positive is
silently skipped. The code only checks this for the pronunciation prompt;
the ending prompt is gated on remainingWait = endDelay - pronDelay, so
with lessonDurationSec = 30, pronAt = 60, endAt = 40 the ending warning
is sent (at elapsed 20) even though its own delay endDelay = -10 is
non-positive, while the pronunciation warning is correctly skipped. -/
theorem ending_warning_fires_despite_nonpositive_delay :
    send_timing_prompts ⟨some ⟨some 60, some "p"⟩, some ⟨some 40, some "e"⟩⟩ 30 =
      [PromptEvent.endingWarningSent 20 "e"] := by decide

/-- C3: with lessonDurationSec = 300, pronAt = 60, endAt = 10 and both
messages configured, the scheduler sends the pronunciation prompt at
elapsed 240 and the ending prompt at elapsed 290, in that order; and an
absent atSecRemaining behaves exactly like 60 (pronunciation) and 10
(ending). -/
theorem timing_prompts_trace_and_defaults :
    send_timing_prompts ⟨some ⟨some 60, some "p"⟩, some ⟨some 10, some "e"⟩⟩ 300 =
        [PromptEvent.pronunciationWarningSent 240 "p",
         PromptEvent.endingWarningSent 290 "e"] ∧
      ∀ (mp me : Option String) (dur : Int),
        send_timing_prompts ⟨some ⟨Option.none, mp⟩, some ⟨Option.none, me⟩⟩ dur =
          send_timing_prompts ⟨some ⟨some 60, mp⟩, some ⟨some 10, me⟩⟩ dur := by
  constructor
  · decide
  · intro mp me dur
    rfl

/-- C4: the claim says resolving participant metadata never raises, but
metadata that parses as JSON which is not an object (for example the
string "null") makes json.loads succeed and the subsequent meta.get call
raise an uncaught AttributeError. -/
theorem parse_metadata_raises_on_nonobject_json :
    parse_participant_metadata (fun _ => Option.none) (.json .none) =
      .error .attributeError := rfl

/-- C5: fetch_agent_context never lets an exception escape, and on every
outcome other than an HTTP 200 with a parseable JSON body (non-200
status, network error or timeout, or body-parse failure) it returns None
and logs the cause. -/
theorem fetch_agent_context_never_raises_and_null_on_failure
    (params : PyDict) (o : HttpOutcome) :
    (∃ r, (fetch_agent_context params o).1 = Except.ok r) ∧
      ((∀ d, o ≠ HttpOutcome.response 200 (some d)) →
        (fetch_agent_context params o).1 = Except.ok Option.none ∧
          ((∃ st, FetchLog.apiError st ∈ (fetch_agent_context params o).2) ∨
            FetchLog.requestFailed ∈ (fetch_agent_context params o).2)) := by
  rcases o with ⟨st, body⟩ | _
  · by_cases hst : st = 200
    · subst hst
      rcases body with _ | d
      · exact ⟨⟨Option.none, rfl⟩, fun _ => ⟨rfl, Or.inr (by simp [fetch_agent_context])⟩⟩
      · exact ⟨⟨some d, rfl⟩, fun h => absurd rfl (h d)⟩
    · have hb : (st == 200) = false := by simpa using hst
      refine ⟨⟨Option.none, ?_⟩, fun _ => ⟨?_, Or.inl ⟨st, ?_⟩⟩⟩ <;>
        simp [fetch_agent_context, hb]
  · exact ⟨⟨Option.none, rfl⟩, fun _ => ⟨rfl, Or.inr (by simp [fetch_agent_context])⟩⟩

theorem fetch_agent_context_witness_http500 :
    (fetch_agent_context [] (HttpOutcome.response 500 Option.none)).1 =
        Except.ok Option.none ∧
      ((∃ st, FetchLog.apiError st ∈
          (fetch_agent_context [] (HttpOutcome.response 500 Option.none)).2) ∨
        FetchLog.requestFailed ∈
          (fetch_agent_context [] (HttpOutcome.response 500 Option.none)).2) :=
  (fetch_agent_context_never_raises_and_null_on_failure []
    (HttpOutcome.response 500 Option.none)).2
    (by intro d hd; injection hd with h1 h2; omega)

/-- C7: if the scheduler task is cancelled during one of its timed waits
(it has completed fewer sleeps than an uncancelled run executes), the
CancelledError is absorbed: nothing is logged and the prompts sent are
exactly the ones already due before the cancelled wait, so no further
scheduled prompt is sent. -/
theorem scheduler_cancellation_silent (timing : TimingPrompts) (dur : Int) (b : Nat)
    (h : b < sleepsNeeded timing dur) :
    (send_timing_prompts_cancellable timing dur b).2 = [] ∧
      (send_timing_prompts_cancellable timing dur b).1 =
        (send_timing_prompts timing dur).take b := by
  rcases b with _ | b
  · refine ⟨?_, ?_⟩ <;>
      · simp only [send_timing_prompts_cancellable, List.take_zero]
        split_ifs <;> rfl
  · simp only [sleepsNeeded] at h
    simp only [send_timing_prompts_cancellable, send_timing_prompts]
    split_ifs at h ⊢ <;> try omega
    all_goals
      have hb : b = 0 := by omega
    all_goals subst hb
    all_goals simp

theorem scheduler_cancellation_witness :
    (send_timing_prompts_cancellable
        ⟨some ⟨some 60, some "p"⟩, some ⟨some 10, some "e"⟩⟩ 300 1).2 = [] ∧
      (send_timing_prompts_cancellable
          ⟨some ⟨some 60, some "p"⟩, some ⟨some 10, some "e"⟩⟩ 300 1).1 =
        (send_timing_prompts
          ⟨some ⟨some 60, some "p"⟩, some ⟨some 10, some "e"⟩⟩ 300).take 1 :=
  scheduler_cancellation_silent ⟨some ⟨some 60, some "p"⟩, some ⟨some 10, some "e"⟩⟩
    300 1 (by decide)

/-- C8: the tracing setup succeeds exactly when endpoint host, public key
and secret key are all present and non-empty; when any is missing, a
warning is logged, no flush callback is registered, and the session
proceeds; when it succeeds, exactly one shutdown flush callback is
registered and no warning is logged. -/
theorem langfuse_setup_requires_all_settings (s : LangfuseSettings) :
    ((entrypointTracing s).tracingActive = true ↔
      optTruthy s.public_key = true ∧ optTruthy s.secret_key = true ∧
        optTruthy s.host = true) ∧
    ((entrypointTracing s).tracingActive = false →
      (entrypointTracing s).shutdownFlushCallbacks = 0 ∧
        (entrypointTracing s).warningsLogged ≠ []) ∧
    ((entrypointTracing s).tracingActive = true →
      (entrypointTracing s).shutdownFlushCallbacks = 1 ∧
        (entrypointTracing s).warningsLogged = []) := by
  rcases hpk : optTruthy s.public_key <;> rcases hsk : optTruthy s.secret_key <;>
    rcases hh : optTruthy s.host <;>
      simp [entrypointTracing, setup_langfuse, hpk, hsk, hh]

theorem langfuse_setup_witness_missing_host :
    (entrypointTracing ⟨some "pk", some "sk", Option.none⟩).shutdownFlushCallbacks = 0 ∧
      (entrypointTracing ⟨some "pk", some "sk", Option.none⟩).warningsLogged ≠ [] :=
  (langfuse_setup_requires_all_settings ⟨some "pk", some "sk", Option.none⟩).2.1
    (by decide)

theorem dictGet_base_append_name (meta : PyDict) (v : PyVal) (rest : PyDict) :
    dictGet? (baseParams meta ++ (("name", v) :: rest)) "name" = some v := rfl

/-- C6: when the context fetch returns None, the entrypoint builds the
fallback lesson context: lessonDurationSec 300, an empty timing-prompt
map, the canned fallback instruction containing the resolved user's name
(also after the userName personalization pass), and a voice chosen
deterministically from the avatar parameter, with avatar "mike" mapping
to "Charon", avatar "nina" mapping to "Zephyr", and no third voice
possible. -/
theorem fallback_context_fields (user_name : String) (params : PyDict)
    (h : ¬ "{userName}".toList <:+: (fallbackSystemInstruction user_name).toList) :
    (contextOrFallback Option.none user_name params).lessonDurationSec = PyVal.int 300 ∧
    (contextOrFallback Option.none user_name params).timingPrompts = PyVal.dict [] ∧
    personalize (contextOrFallback Option.none user_name params).systemInstruction
        user_name =
      Except.ok (PyVal.str ("Se apresente como Professor Mike e comece uma aula para "
        ++ user_name ++ (".\n" ++ FALLBACK_INSTRUCTION))) ∧
    (∃ pre post, fallbackSystemInstruction user_name = pre ++ user_name ++ post) ∧
    (contextOrFallback Option.none user_name [("avatar", PyVal.str "mike")]).voice =
      PyVal.str "Charon" ∧
    (contextOrFallback Option.none user_name [("avatar", PyVal.str "nina")]).voice =
      PyVal.str "Zephyr" ∧
    ((contextOrFallback Option.none user_name params).voice = PyVal.str "Charon" ∨
      (contextOrFallback Option.none user_name params).voice = PyVal.str "Zephyr") := by
  refine ⟨rfl, rfl, ?_, ?_, rfl, rfl, ?_⟩
  · show Except.ok (PyVal.str (pyReplace (fallbackSystemInstruction user_name)
      "{userName}" user_name)) = _
    rw [pyReplace_no_occurrence _ _ _ h]
    rfl
  · exact ⟨"Se apresente como Professor Mike e comece uma aula para ",
      ".\n" ++ FALLBACK_INSTRUCTION, rfl⟩
  · rcases hv : pyNeStr (pyGetD params "avatar" (PyVal.str "mike")) "nina"
    · right
      simp [contextOrFallback, fallbackLessonContext, hv]
    · left
      simp [contextOrFallback, fallbackLessonContext, hv]

set_option maxRecDepth 100000 in
theorem fallback_context_witness :
    (contextOrFallback Option.none "Ana" []).lessonDurationSec = PyVal.int 300 ∧
    (contextOrFallback Option.none "Ana" []).timingPrompts = PyVal.dict [] ∧
    personalize (contextOrFallback Option.none "Ana" []).systemInstruction "Ana" =
      Except.ok (PyVal.str ("Se apresente como Professor Mike e comece uma aula para "
        ++ "Ana" ++ (".\n" ++ FALLBACK_INSTRUCTION))) ∧
    (∃ pre post, fallbackSystemInstruction "Ana" = pre ++ "Ana" ++ post) ∧
    (contextOrFallback Option.none "Ana" [("avatar", PyVal.str "mike")]).voice =
      PyVal.str "Charon" ∧
    (contextOrFallback Option.none "Ana" [("avatar", PyVal.str "nina")]).voice =
      PyVal.str "Zephyr" ∧
    ((contextOrFallback Option.none "Ana" []).voice = PyVal.str "Charon" ∨
      (contextOrFallback Option.none "Ana" []).voice = PyVal.str "Zephyr") :=
  fallback_context_fields "Ana" [] (by decide)

/-- C9: for metadata that parses as a JSON object, whenever the jwt field
is absent, empty, falsy, non-string, or fails to decode, the resolved
name is "aluno", whatever top-level fields (such as "name") the JSON
object itself carries. -/
theorem json_metadata_name_defaults_to_aluno (jwtDecode : JwtDecoder) (meta : PyDict)
    (hjwt : metaJwtDecodes jwtDecode meta = Option.none) (r : PyDict)
    (hr : parse_participant_metadata jwtDecode (.json (.dict meta)) = .ok r) :
    dictGet? r "name" = some (PyVal.str "aluno") := by
  have heq : parse_participant_metadata jwtDecode (.json (.dict meta))
      = .ok (jsonBranch jwtDecode meta) := rfl
  rw [heq] at hr
  injection hr with hr
  subst hr
  simp only [jsonBranch]
  simp only [metaJwtDecodes] at hjwt
  rcases hj : pyGetD meta "jwt" (PyVal.str "") with _ | bb | nn | ss | xs | kvs
  · exact dictGet_base_append_name meta (PyVal.str "aluno") []
  · cases bb
    · exact dictGet_base_append_name meta (PyVal.str "aluno") []
    · exact dictGet_base_append_name meta (PyVal.str "aluno") []
  · by_cases hnn : truthy (PyVal.int nn) = true
    · rw [if_pos hnn]
      exact dictGet_base_append_name meta (PyVal.str "aluno") []
    · rw [if_neg hnn]
      exact dictGet_base_append_name meta (PyVal.str "aluno") []
  · rw [hj] at hjwt
    by_cases hss : (ss != "") = true
    · rw [if_pos (show truthy (PyVal.str ss) = true from hss)]
      simp only [hss, if_true] at hjwt
      simp [hjwt, dictGet_base_append_name]
    · rw [if_neg (show ¬ truthy (PyVal.str ss) = true from hss)]
      exact dictGet_base_append_name meta (PyVal.str "aluno") []
  · by_cases hxs : truthy (PyVal.list xs) = true
    · rw [if_pos hxs]
      exact dictGet_base_append_name meta (PyVal.str "aluno") []
    · rw [if_neg hxs]
      exact dictGet_base_append_name meta (PyVal.str "aluno") []
  · by_cases hkv : truthy (PyVal.dict kvs) = true
    · rw [if_pos hkv]
      exact dictGet_base_append_name meta (PyVal.str "aluno") []
    · rw [if_neg hkv]
      exact dictGet_base_append_name meta (PyVal.str "aluno") []

theorem json_metadata_name_witness :
    dictGet? (jsonBranch (fun _ => Option.none) [("name", PyVal.str "Zoe")]) "name" =
      some (PyVal.str "aluno") :=
  json_metadata_name_defaults_to_aluno (fun _ => Option.none)
    [("name", PyVal.str "Zoe")] rfl
    (jsonBranch (fun _ => Option.none) [("name", PyVal.str "Zoe")]) rfl

/-- C10: with every relevant claim either absent or a non-empty string,
the JSON-embedded-jwt path resolves the name by precedence name,
given_name, sub (default "aluno") and the id by userId then sub, while
the legacy raw-token path resolves the name by precedence given_name,
name, sub (default "aluno") and the id from sub only. -/
theorem jwt_claim_precedence (decoded : PyDict) (g n sb uid : Option String)
    (hg : dictGet? decoded "given_name" = g.map PyVal.str)
    (hn : dictGet? decoded "name" = n.map PyVal.str)
    (hs : dictGet? decoded "sub" = sb.map PyVal.str)
    (hu : dictGet? decoded "userId" = uid.map PyVal.str)
    (hgne : ∀ t, g = some t → t ≠ "")
    (hnne : ∀ t, n = some t → t ≠ "")
    (hsne : ∀ t, sb = some t → t ≠ "")
    (hune : ∀ t, uid = some t → t ≠ "") :
    rawNameOf decoded = PyVal.str (((g.or n).or sb).getD "aluno") ∧
    jsonNameOf decoded = PyVal.str (((n.or g).or sb).getD "aluno") ∧
    rawIdOf decoded = (sb.map PyVal.str).getD PyVal.none ∧
    jsonIdOf decoded = PyVal.str ((uid.or sb).getD "") := by
  rcases g with _ | g <;> rcases n with _ | n <;> rcases sb with _ | sb <;>
    rcases uid with _ | uid <;>
      simp_all [rawNameOf, jsonNameOf, rawIdOf, jsonIdOf, pyGetD, pyOr, truthy,
        Option.or, bne_iff_ne, ne_eq]

theorem jwt_claim_precedence_witness :
    rawNameOf [("name", PyVal.str "Ana"), ("sub", PyVal.str "123")] = PyVal.str "Ana" ∧
    jsonNameOf [("name", PyVal.str "Ana"), ("sub", PyVal.str "123")] = PyVal.str "Ana" ∧
    rawIdOf [("name", PyVal.str "Ana"), ("sub", PyVal.str "123")] = PyVal.str "123" ∧
    jsonIdOf [("name", PyVal.str "Ana"), ("sub", PyVal.str "123")] = PyVal.str "123" :=
  jwt_claim_precedence [("name", PyVal.str "Ana"), ("sub", PyVal.str "123")]
    Option.none (some "Ana") (some "123") Option.none rfl rfl rfl rfl
    nofun
    (by intro t ht; injection ht with h; subst h; decide)
    (by intro t ht; injection ht with h; subst h; decide)
    nofun

end Mike
